import Mathlib

/-!
Verification of the immudb vault client (`PyTest_immudb/immudb.py` and its
test suite `PyTest_immudb/test_immudb.py`).

The Python module is shallowly embedded: JSON values become an inductive
`Json` type, Python dictionary operations (`dict.get`, `dict.keys`,
iteration) become total Lean functions returning `Except PyErr` so that the
faults Python raises on `None` are explicit values, and each HTTP call is
modelled as a pure function of the request data and the remote response.
Numbers are modelled in exact rational arithmetic.
-/

/-- Faults raised by the embedded Python operations: `attributeError`
models Python `AttributeError` (attribute access on an unsuitable value,
for example `None.keys()`), `typeError` models Python `TypeError`
(for example iterating over `None`). -/
inductive PyErr where
  | attributeError (msg : String)
  | typeError (msg : String)
deriving DecidableEq, Repr

/-- JSON values, the data manipulated by the client: `null` models Python
`None`, `arr` a list, `obj` a dict with its key order. -/
inductive Json where
  | null
  | str (s : String)
  | num (q : ℚ)
  | bool (b : Bool)
  | arr (xs : List Json)
  | obj (fields : List (String × Json))

/-- Python `d.get(k)`: on a dict it returns the stored value, or `None`
when the key is absent; on `None` or any non-dict value it raises
`AttributeError`. -/
def dictGet : Json → String → Except PyErr Json
  | .obj fields, k => .ok ((fields.lookup k).getD .null)
  | .null, _ => .error (.attributeError "NoneType object has no attribute get")
  | _, _ => .error (.attributeError "object has no attribute get")

/-- Python `d.keys()` as the list of keys in order; on `None` or any
non-dict value it raises `AttributeError`. -/
def dictKeys : Json → Except PyErr (List String)
  | .obj fields => .ok (fields.map Prod.fst)
  | .null => .error (.attributeError "NoneType object has no attribute keys")
  | _ => .error (.attributeError "object has no attribute keys")

/-- Python iteration `for x in v`: a list yields its elements, a dict its
keys, a string its characters; `None`, numbers and booleans raise
`TypeError`. -/
def pyIter : Json → Except PyErr (List Json)
  | .arr xs => .ok xs
  | .obj fields => .ok (fields.map (fun kv => Json.str kv.1))
  | .str s => .ok (s.data.map (fun c => Json.str (String.singleton c)))
  | .null => .error (.typeError "NoneType object is not iterable")
  | _ => .error (.typeError "object is not iterable")

/-- Remote HTTP response as seen by the client: status code, parsed JSON
body (`response.json()`) and raw text (`response.text`). -/
structure HttpResponse where
  status : ℕ
  body : Json
  text : String

/-- Outgoing HTTP request assembled by the client. -/
structure HttpRequest where
  method : String
  url : String
  headers : List (String × String)
  body : Option Json

/-- Hardcoded API key from `immudb.py`. -/
def APIKey : String :=
  "default.NBw3gy9WWSmIXhrrkCxnKw.vw1fnvIKEp6hBxd5JPqwYVWKgtUHzpLeTGSCbO9XkmIFNU1t"

/-- JSON body transmitted by `put_data_request`: a list argument is
rebound to the wrapper dict `{'document': data}`, any other argument is
transmitted as is (lines 67-70 of `immudb.py`). -/
def put_body (data : Json) : Json :=
  match data with
  | .arr xs => .obj [("document", .arr xs)]
  | d => d

/-- Embedding of `put_data_request`: given the argument and the remote
response, the pair of the assembled PUT request and the returned boolean
(`True` iff the status code is 200). -/
def put_data_request (data : Json) (response : HttpResponse) : HttpRequest × Bool :=
  ({ method := "PUT"
   , url := "https://vault.immudb.io/ics/api/v1/ledger/default/collection/default/document"
   , headers := [("accept", "application/json"), ("X-API-Key", APIKey),
       ("Content-Type", "application/json")]
   , body := some (put_body data) }
  , if response.status = 200 then true else false)

/-- Constant POST request assembled by `get_data_request` (lines 89-99 of
`immudb.py`): the function takes no argument and always sends the body
`{"page": 1, "perPage": 100}` with the API-key header. -/
def get_data_request_request : HttpRequest :=
  { method := "POST"
  , url := "https://vault.immudb.io/ics/api/v1/ledger/default/collection/default/documents/search"
  , headers := [("accept", "application/json"), ("X-API-Key", APIKey)]
  , body := some (.obj [("page", .num 1), ("perPage", .num 100)]) }

/-- Embedding of the return value of `get_data_request`: both branches of
the status test return `response.json()` (lines 100-103 of `immudb.py`). -/
def get_data_request (response : HttpResponse) : Json :=
  if response.status = 200 then response.body else response.body

/-- Diagnostic output events of `delete_collection`: the unconditional
`print(response)` and the error `print` on a non-200 status. -/
inductive Diag where
  | printedResponse (status : ℕ)
  | printedError (status : ℕ) (text : String)
deriving DecidableEq, Repr

/-- Embedding of `delete_collection` (lines 106-131 of `immudb.py`): given
the remote response, the list of printed diagnostics and the returned
boolean. -/
def delete_collection (response : HttpResponse) : List Diag × Bool :=
  if response.status = 200 then
    ([.printedResponse response.status], true)
  else
    ([.printedResponse response.status,
      .printedError response.status response.text], false)

/-- Loop of `get_all_transaction` (lines 147-152 of `immudb.py`): walk the
revisions, appending either the elements of the nested `document` list or
the revision document itself to the accumulator `all_doc`. -/
def get_all_transaction_loop : List Json → List Json → Except PyErr (List Json)
  | [], all_doc => .ok all_doc
  | document :: rest, all_doc => do
    let d ← dictGet document "document"
    let ks ← dictKeys d
    if "document" ∈ ks then
      let inner ← dictGet d "document"
      let items ← pyIter inner
      get_all_transaction_loop rest (all_doc ++ items)
    else
      get_all_transaction_loop rest (all_doc ++ [d])

/-- Embedding of `get_all_transaction` (lines 134-153 of `immudb.py`) as a
function of the fetched search response `current_data`. -/
def get_all_transaction (current_data : Json) : Except PyErr (List Json) := do
  let revision ← dictGet current_data "revisions"
  let revs ← pyIter revision
  get_all_transaction_loop revs []

/-- Well-formed revision as described by the spec: a mapping whose
`document` field is itself a mapping, and when that mapping contains a
nested `document` key its value is an ordered sequence. -/
def wfRevision : Json → Bool
  | .obj fields =>
    match fields.lookup "document" with
    | some (.obj inner) =>
      match inner.lookup "document" with
      | some v => match v with | .arr _ => true | _ => false
      | none => true
    | _ => false
  | _ => false

/-- Contribution of one revision to the flat result, following the spec
wording: if the revision's `document` mapping contains a nested `document`
key, its elements in sequence order; otherwise the `document` mapping
itself as one element. -/
def flattenRevision_spec : Json → List Json
  | .obj fields =>
    match fields.lookup "document" with
    | some (.obj inner) =>
      match inner.lookup "document" with
      | some (.arr xs) => xs
      | _ => [.obj inner]
    | some d => [d]
    | none => []
  | _ => []

/-- Spec-side flat list over a sequence of revisions, in order. -/
def flattenRevisions_spec : List Json → List Json
  | [] => []
  | rev :: rest => flattenRevision_spec rev ++ flattenRevisions_spec rest

theorem except_bind_ok {α β : Type} (a : α) (f : α → Except PyErr β) :
    (Except.ok a : Except PyErr α) >>= f = f a := rfl

theorem except_bind_error {α β : Type} (e : PyErr) (f : α → Except PyErr β) :
    (Except.error e : Except PyErr α) >>= f = .error e := rfl

theorem mem_keys_iff_lookup_isSome (l : List (String × Json)) (k : String) :
    k ∈ l.map Prod.fst ↔ (l.lookup k).isSome := by
  induction l with
  | nil => simp [List.lookup]
  | cons p rest ih =>
    obtain ⟨k', v⟩ := p
    by_cases h : k = k'
    · subst h; simp [List.lookup]
    · have hbeq : (k == k') = false := beq_false_of_ne h
      rw [List.map_cons, List.mem_cons]
      simp only [List.lookup, hbeq]
      constructor
      · intro h'
        rcases h' with h' | h'
        · exact absurd h' h
        · exact ih.mp h'
      · intro h'
        exact Or.inr (ih.mpr h')

theorem get_all_transaction_loop_spec (revs : List Json) :
    ∀ acc, (∀ rev ∈ revs, wfRevision rev = true) →
    get_all_transaction_loop revs acc = .ok (acc ++ flattenRevisions_spec revs) := by
  induction revs with
  | nil =>
    intro acc _
    simp [get_all_transaction_loop, flattenRevisions_spec]
  | cons rev rest ih =>
    intro acc hwf
    have hrev : wfRevision rev = true := hwf rev (by simp)
    have hrest : ∀ r ∈ rest, wfRevision r = true := fun r hr => hwf r (by simp [hr])
    match rev with
    | .null | .str _ | .num _ | .bool _ | .arr _ => simp [wfRevision] at hrev
    | .obj fields =>
      match h1 : fields.lookup "document" with
      | none | some .null | some (.str _) | some (.num _) | some (.bool _)
      | some (.arr _) =>
        simp [wfRevision, h1] at hrev
      | some (.obj inner) =>
        have hd : dictGet (.obj fields) "document" = .ok (.obj inner) := by
          simp [dictGet, h1]
        by_cases hk : "document" ∈ inner.map Prod.fst
        · have hsome : (inner.lookup "document").isSome :=
            (mem_keys_iff_lookup_isSome inner "document").mp hk
          match h2 : inner.lookup "document" with
          | none => rw [h2] at hsome; simp at hsome
          | some v =>
            match v with
            | .null | .str _ | .num _ | .bool _ | .obj _ =>
              simp [wfRevision, h1, h2] at hrev
            | .arr xs =>
              have hd2 : dictGet (.obj inner) "document" = .ok (.arr xs) := by
                simp [dictGet, h2]
              simp only [get_all_transaction_loop, hd, except_bind_ok, dictKeys,
                hk, if_pos, hd2, pyIter, flattenRevisions_spec,
                flattenRevision_spec, h1, h2]
              rw [ih (acc ++ xs) hrest]
              simp
        · have hnone : inner.lookup "document" = none := by
            match h2 : inner.lookup "document" with
            | none => rfl
            | some v =>
              exact absurd ((mem_keys_iff_lookup_isSome inner "document").mpr
                (by rw [h2]; rfl)) hk
          simp only [get_all_transaction_loop, hd, except_bind_ok, dictKeys,
            hk, if_neg, flattenRevisions_spec, flattenRevision_spec, h1, hnone,
            if_false]
          rw [ih (acc ++ [Json.obj inner]) hrest]
          simp

/-- C1: for a fetched response whose `revisions` field is a sequence of
well-formed revisions, `get_all_transaction` returns exactly the flat list
built by visiting the revisions in order: the elements of the nested
`document` sequence for a batch revision, the `document` mapping itself
for any other revision, and nothing else. -/
theorem get_all_transaction_flattens (current_data : Json) (revs : List Json)
    (hrev : dictGet current_data "revisions" = .ok (.arr revs))
    (hwf : ∀ rev ∈ revs, wfRevision rev = true) :
    get_all_transaction current_data = .ok (flattenRevisions_spec revs) := by
  simp only [get_all_transaction, hrev, except_bind_ok, pyIter]
  exact get_all_transaction_loop_spec revs [] hwf

/-- Concrete revisions used to witness C1: one single-document revision
and one batch revision. -/
def revsWitness : List Json :=
  [.obj [("document", .obj [("account_number", .str "1"), ("amount", .num 5)])],
   .obj [("document", .obj [("document",
      .arr [.obj [("amount", .num 1)], .obj [("amount", .num 2)]])])]]

/-- Concrete search response used to witness C1. -/
def respWitness : Json := .obj [("revisions", .arr revsWitness)]

/-- Witness for C1 at a concrete two-revision response. -/
theorem get_all_transaction_flattens_witness :
    get_all_transaction respWitness = .ok (flattenRevisions_spec revsWitness) :=
  get_all_transaction_flattens respWitness revsWitness rfl (by decide)

/-- C4: a list argument (including the empty list) is transmitted wrapped
as the single-key mapping `document ↦ list`, while a single transaction
mapping is transmitted unwrapped. -/
theorem put_data_request_body_shape :
    (∀ (xs : List Json) (resp : HttpResponse),
      (put_data_request (.arr xs) resp).1.body = some (.obj [("document", .arr xs)]))
    ∧ (∀ (fields : List (String × Json)) (resp : HttpResponse),
      (put_data_request (.obj fields) resp).1.body = some (.obj fields)) :=
  ⟨fun _ _ => rfl, fun _ _ => rfl⟩

/-- C5: `put_data_request` returns `True` exactly on a 200 response and
`False` on every other status code, whatever the argument. -/
theorem put_data_request_status_bool (data : Json) (resp : HttpResponse) :
    ((put_data_request data resp).2 = true ↔ resp.status = 200)
    ∧ ((put_data_request data resp).2 = false ↔ resp.status ≠ 200) := by
  unfold put_data_request
  by_cases h : resp.status = 200 <;> simp [h]

/-- Witness for C5 at a 404 response: the returned boolean is `False`. -/
theorem put_data_request_status_bool_witness :
    (put_data_request Json.null ⟨404, Json.null, "err"⟩).2 = false :=
  (put_data_request_status_bool Json.null ⟨404, Json.null, "err"⟩).2.mpr (by decide)

/-- C6: `get_data_request` returns the parsed JSON body of the response
verbatim for every status code; no status is turned into a boolean. -/
theorem get_data_request_returns_body (resp : HttpResponse) :
    get_data_request resp = resp.body := by
  unfold get_data_request
  by_cases h : resp.status = 200 <;> simp [h]

/-- C9: the search request is the constant POST carrying exactly the JSON
body with page 1 and perPage 100 and the API-key header; the embedding
takes no argument, so no other page or page size can be requested. -/
theorem get_data_request_fixed_request :
    get_data_request_request.method = "POST"
    ∧ get_data_request_request.body
        = some (.obj [("page", .num 1), ("perPage", .num 100)])
    ∧ ("X-API-Key", APIKey) ∈ get_data_request_request.headers :=
  ⟨rfl, rfl, by simp [get_data_request_request]⟩

/-- C7: on a fetched response that is a mapping without a `revisions`
field, `get_all_transaction` raises the fault of iterating over the null
value instead of returning a list; nothing checks the field first. -/
theorem get_all_transaction_missing_revisions_faults
    (fields : List (String × Json)) (h : fields.lookup "revisions" = none) :
    get_all_transaction (.obj fields)
      = .error (.typeError "NoneType object is not iterable") := by
  have hget : dictGet (.obj fields) "revisions" = .ok .null := by
    simp [dictGet, h]
  simp [get_all_transaction, hget, except_bind_ok, except_bind_error, pyIter]

/-- Witness for C7 at a concrete error payload without `revisions`. -/
theorem get_all_transaction_missing_revisions_faults_witness :
    get_all_transaction (.obj [("error", .str "unauthorized")])
      = .error (.typeError "NoneType object is not iterable") :=
  get_all_transaction_missing_revisions_faults [("error", .str "unauthorized")] rfl

/-- C8: `delete_collection` returns `True` exactly on a 200 response, and
on every other status code it prints the status code and response body as
a diagnostic and returns `False`. -/
theorem delete_collection_spec (resp : HttpResponse) :
    ((delete_collection resp).2 = true ↔ resp.status = 200)
    ∧ (resp.status ≠ 200 →
        (delete_collection resp).2 = false
        ∧ Diag.printedError resp.status resp.text ∈ (delete_collection resp).1) := by
  unfold delete_collection
  by_cases h : resp.status = 200 <;> simp [h]

/-- Witness for C8 at a 500 response: `False` is returned and the error
diagnostic carrying status and body text is printed. -/
theorem delete_collection_spec_witness :
    (delete_collection ⟨500, Json.null, "boom"⟩).2 = false
    ∧ Diag.printedError 500 "boom" ∈ (delete_collection ⟨500, Json.null, "boom"⟩).1 :=
  (delete_collection_spec ⟨500, Json.null, "boom"⟩).2 (by decide)

/-- Python `d.update(kvs)` on a dict: existing keys are overwritten in
place, new keys appended. -/
def setKey : List (String × Json) → String → Json → List (String × Json)
  | [], k, v => [(k, v)]
  | (k', v') :: rest, k, v =>
    if k' = k then (k, v) :: rest else (k', v') :: setKey rest k v

/-- Python `d.update({...})`: mutates the dict and returns `None`. The
pure-value model returns the pair of the mutated dict and the call's
return value, which is always `None`. -/
def dict_update (d : Json) (kvs : List (String × Json)) : Json × Json :=
  match d with
  | .obj fields => (.obj (kvs.foldl (fun fs kv => setKey fs kv.1 kv.2) fields), .null)
  | d => (d, .null)

/-- Store model fixed by the overwrite claim: each write appends one
revision holding exactly the transmitted body, and the search response
presents the revisions in order under the `revisions` key. -/
def searchResponse (store : List Json) : Json :=
  .obj [("revisions", .arr (store.map (fun b => .obj [("document", b)])))]

/-- Scenario of `test_transaction_overwriting` (lines 81-84 of
`test_immudb.py`): the transaction is written, then
`put_data_request(transaction.update(...))` passes the RETURN VALUE of
`dict.update`, which is `None`, to the second write; the flattened
aggregate is then computed over the resulting store. -/
def overwriting_scenario (t : Json) : Except PyErr (List Json) :=
  let body1 := put_body t
  let secondArg := (dict_update t [("amount", .num 999)]).2
  let body2 := put_body secondArg
  get_all_transaction (searchResponse [body1, body2])

/-- Concrete transaction used as the failing input for the overwrite
scenario. -/
def tOverwrite : Json :=
  .obj [("account_number", .str "12345678901234567890123456"),
        ("account_name", .str "alice"),
        ("iban", .str "GB29NWBK60161331926819"),
        ("address", .str "1 Main St"),
        ("amount", .num 50),
        ("type", .str "sending")]

/-- C3: at the concrete transaction, the scenario as written in the test
faults while flattening (the second revision holds `None`, because
`dict.update` returns `None`), so the aggregate never contains an entry
with the transaction's account number and amount 999. -/
theorem overwriting_scenario_faults :
    overwriting_scenario tOverwrite
      = .error (.attributeError "NoneType object has no attribute keys") := rfl

/-- Decimal digits of a natural number, least significant first, with
explicit fuel so that the function is structurally recursive. -/
def digitsRev : ℕ → ℕ → List ℕ
  | 0, _ => []
  | _ + 1, 0 => []
  | fuel + 1, n + 1 => ((n + 1) % 10) :: digitsRev fuel ((n + 1) / 10)

/-- Decimal digit character, `digitChar d` is the character for `d`. -/
def digitChar (d : ℕ) : Char := Char.ofNat (48 + d)

/-- Python `str(n)` for a natural number: its decimal representation. -/
def pyStrNat (n : ℕ) : String :=
  if n = 0 then "0" else String.mk ((digitsRev n n).reverse.map digitChar)

/-- Python `round(x, 2)` scales by 100 and rounds half to even; modelled
in exact rational arithmetic, as the exact rounding rule is not
load-bearing elsewhere. -/
def roundHalfEven (q : ℚ) : ℤ :=
  if q - ⌊q⌋ < 1 / 2 then ⌊q⌋
  else if 1 / 2 < q - ⌊q⌋ then ⌊q⌋ + 1
  else if ⌊q⌋ % 2 = 0 then ⌊q⌋ else ⌊q⌋ + 1

/-- Python `round(x, 2)`. -/
def pyRound2 (q : ℚ) : ℚ := (roundHalfEven (100 * q) : ℚ) / 100

/-- Draws consumed by one call of `generate_transaction`: the fixed-length
account number drawn by `fake.random_number(digits=26, fix_len=True)`
(uniform on `[10^25, 10^26)`), the free-text draws, the unit draw of
`random.random()` feeding `random.uniform(1.0, 10000.0)`, and the index
drawn by `random.choice` on the two-element tuple. -/
structure RandomSource where
  accountNumber : ℕ
  userName : String
  ibanText : String
  addressText : String
  uniform01 : ℚ
  choiceIdx : Fin 2

/-- Transaction record produced by `generate_transaction`. -/
structure Transaction where
  account_number : String
  account_name : String
  iban : String
  address : String
  amount : ℚ
  type : String

/-- Embedding of `generate_transaction` (lines 44-52 of `immudb.py`);
`random.uniform(1.0, 10000.0)` is `1.0 + (10000.0 - 1.0) * random()`. -/
def generate_transaction (r : RandomSource) : Transaction :=
  { account_number := pyStrNat r.accountNumber
  , account_name := r.userName
  , iban := r.ibanText
  , address := r.addressText
  , amount := pyRound2 (1 + (10000 - 1) * r.uniform01)
  , type := if r.choiceIdx = (0 : Fin 2) then "sending" else "receiving" }

theorem digitsRev_zero (fuel : ℕ) : digitsRev fuel 0 = [] := by
  cases fuel <;> rfl

theorem digitsRev_length :
    ∀ (k fuel n : ℕ), n ≤ fuel → 10 ^ k ≤ n → n < 10 ^ (k + 1) →
    (digitsRev fuel n).length = k + 1 := by
  intro k
  induction k with
  | zero =>
    intro fuel n hfuel hlo hhi
    match n, fuel with
    | 0, _ => simp at hlo
    | n + 1, 0 => omega
    | n + 1, fuel + 1 =>
      have h10 : n + 1 < 10 := by simpa using hhi
      have hdiv : (n + 1) / 10 = 0 := Nat.div_eq_of_lt h10
      simp [digitsRev, hdiv, digitsRev_zero]
  | succ k ih =>
    intro fuel n hfuel hlo hhi
    have hn : 1 ≤ n := le_trans (Nat.one_le_pow _ _ (by norm_num)) hlo
    match n, fuel with
    | 0, _ => omega
    | n + 1, 0 => omega
    | n + 1, fuel + 1 =>
      have hrec : (digitsRev fuel ((n + 1) / 10)).length = k + 1 := by
        apply ih
        · have : (n + 1) / 10 < n + 1 := Nat.div_lt_self (by omega) (by norm_num)
          omega
        · rw [Nat.le_div_iff_mul_le (by norm_num : 0 < 10)]
          calc 10 ^ k * 10 = 10 ^ (k + 1) := by rw [pow_succ]
          _ ≤ n + 1 := hlo
        · rw [Nat.div_lt_iff_lt_mul (by norm_num : 0 < 10)]
          calc n + 1 < 10 ^ (k + 1 + 1) := hhi
          _ = 10 ^ (k + 1) * 10 := by rw [pow_succ]
      simp [digitsRev, hrec]

theorem digitsRev_lt_ten :
    ∀ (fuel n : ℕ), ∀ d ∈ digitsRev fuel n, d < 10 := by
  intro fuel
  induction fuel with
  | zero => intro n d hd; simp [digitsRev] at hd
  | succ f ih =>
    intro n d hd
    match n with
    | 0 => simp [digitsRev] at hd
    | n + 1 =>
      simp only [digitsRev, List.mem_cons] at hd
      rcases hd with h | h
      · subst h; exact Nat.mod_lt _ (by norm_num)
      · exact ih _ d h

theorem digitChar_isDigit : ∀ d < 10, (digitChar d).isDigit = true := by decide

theorem pyStrNat_length (n k : ℕ) (hlo : 10 ^ k ≤ n) (hhi : n < 10 ^ (k + 1)) :
    (pyStrNat n).length = k + 1 := by
  have hn : n ≠ 0 := by
    have : 1 ≤ n := le_trans (Nat.one_le_pow _ _ (by norm_num)) hlo
    omega
  unfold pyStrNat
  rw [if_neg hn]
  show ((digitsRev n n).reverse.map digitChar).length = k + 1
  rw [List.length_map, List.length_reverse]
  exact digitsRev_length k n n le_rfl hlo hhi

theorem pyStrNat_digits (n : ℕ) (hn : n ≠ 0) :
    ∀ c ∈ (pyStrNat n).data, c.isDigit = true := by
  unfold pyStrNat
  rw [if_neg hn]
  intro c hc
  have hc' : c ∈ (digitsRev n n).reverse.map digitChar := hc
  simp only [List.mem_map, List.mem_reverse] at hc'
  obtain ⟨d, hd, rfl⟩ := hc'
  exact digitChar_isDigit d (digitsRev_lt_ten n n d hd)

theorem roundHalfEven_ge_floor (q : ℚ) : ⌊q⌋ ≤ roundHalfEven q := by
  unfold roundHalfEven
  split_ifs <;> omega

theorem roundHalfEven_le_floor_add_one (q : ℚ) : roundHalfEven q ≤ ⌊q⌋ + 1 := by
  unfold roundHalfEven
  split_ifs <;> omega

theorem pyRound2_ge_one (q : ℚ) (h : 1 ≤ q) : 1 ≤ pyRound2 q := by
  have h1 : (100 : ℤ) ≤ ⌊100 * q⌋ := by
    rw [Int.le_floor]
    push_cast
    linarith
  have h2 : (100 : ℤ) ≤ roundHalfEven (100 * q) :=
    le_trans h1 (roundHalfEven_ge_floor _)
  unfold pyRound2
  rw [le_div_iff₀ (by norm_num : (0 : ℚ) < 100)]
  have : (100 : ℚ) ≤ (roundHalfEven (100 * q) : ℚ) := by exact_mod_cast h2
  linarith

theorem pyRound2_le_ten_thousand (q : ℚ) (h : q < 10000) : pyRound2 q ≤ 10000 := by
  have h1 : ⌊100 * q⌋ < 1000000 := by
    rw [Int.floor_lt]
    push_cast
    linarith
  have h2 : roundHalfEven (100 * q) ≤ 1000000 := by
    have := roundHalfEven_le_floor_add_one (100 * q)
    omega
  unfold pyRound2
  rw [div_le_iff₀ (by norm_num : (0 : ℚ) < 100)]
  have : (roundHalfEven (100 * q) : ℚ) ≤ 1000000 := by exact_mod_cast h2
  linarith

/-- Unit draw that makes `random.uniform(1.0, 10000.0)` return 9999.996,
which rounds up to 10000.00. -/
def rOverflow : RandomSource :=
  { accountNumber := 10 ^ 25
  , userName := "u"
  , ibanText := "ib"
  , addressText := "ad"
  , uniform01 := 2499749 / 2499750
  , choiceIdx := 0 }

/-- C2 counterexample: at a legitimate draw (unit draw in `[0, 1)`), the
generated `amount` is exactly 10000.00, outside the claimed half-open
interval `[1.00, 10000.00)`. -/
theorem generate_transaction_amount_reaches_upper_bound :
    0 ≤ rOverflow.uniform01 ∧ rOverflow.uniform01 < 1
    ∧ (generate_transaction rOverflow).amount = 10000
    ∧ ¬ (generate_transaction rOverflow).amount < 10000 := by
  have hval : (generate_transaction rOverflow).amount = 10000 := by
    show pyRound2 (1 + (10000 - 1) * ((2499749 : ℚ) / 2499750)) = 10000
    norm_num [pyRound2, roundHalfEven]
  refine ⟨by norm_num [rOverflow], by norm_num [rOverflow], hval, ?_⟩
  rw [hval]
  exact lt_irrefl _

/-- C2 (amended): with legitimate draws (26 fixed-length digits for the
account number, unit draw in `[0, 1)`), the generated `account_number` is
a string of exactly 26 decimal digits, the `amount` lies in the closed
interval `[1.00, 10000.00]` and has at most 2 fractional digits, and the
`type` is either `sending` or `receiving`. -/
theorem generate_transaction_spec (r : RandomSource)
    (hlo : 10 ^ 25 ≤ r.accountNumber) (hhi : r.accountNumber < 10 ^ 26)
    (hx0 : 0 ≤ r.uniform01) (hx1 : r.uniform01 < 1) :
    ((generate_transaction r).account_number.length = 26
      ∧ ∀ c ∈ (generate_transaction r).account_number.data, c.isDigit = true)
    ∧ (1 ≤ (generate_transaction r).amount
      ∧ (generate_transaction r).amount ≤ 10000
      ∧ ∃ k : ℤ, (generate_transaction r).amount = (k : ℚ) / 100)
    ∧ ((generate_transaction r).type = "sending"
      ∨ (generate_transaction r).type = "receiving") := by
  have hne : r.accountNumber ≠ 0 := by
    have : 1 ≤ r.accountNumber := le_trans (Nat.one_le_pow _ _ (by norm_num)) hlo
    omega
  refine ⟨⟨?_, ?_⟩, ⟨?_, ?_, ?_⟩, ?_⟩
  · exact pyStrNat_length r.accountNumber 25 hlo hhi
  · exact pyStrNat_digits r.accountNumber hne
  · exact pyRound2_ge_one _ (by linarith)
  · exact pyRound2_le_ten_thousand _ (by linarith)
  · exact ⟨roundHalfEven (100 * (1 + (10000 - 1) * r.uniform01)), rfl⟩
  · show (if r.choiceIdx = (0 : Fin 2) then "sending" else "receiving") = "sending"
        ∨ (if r.choiceIdx = (0 : Fin 2) then "sending" else "receiving") = "receiving"
    by_cases h : r.choiceIdx = (0 : Fin 2)
    · exact Or.inl (by rw [if_pos h])
    · exact Or.inr (by rw [if_neg h])

/-- Concrete draws used to witness C2: unit draw 0, smallest 26-digit
account number. -/
def rUnitZero : RandomSource :=
  { accountNumber := 10 ^ 25
  , userName := "u"
  , ibanText := "ib"
  , addressText := "ad"
  , uniform01 := 0
  , choiceIdx := 0 }

/-- Witness for C2 (amended) at the concrete draws of `rUnitZero`. -/
theorem generate_transaction_spec_witness :
    (10 ^ 25 ≤ rUnitZero.accountNumber ∧ rUnitZero.accountNumber < 10 ^ 26
      ∧ 0 ≤ rUnitZero.uniform01 ∧ rUnitZero.uniform01 < 1)
    ∧ (((generate_transaction rUnitZero).account_number.length = 26
        ∧ ∀ c ∈ (generate_transaction rUnitZero).account_number.data, c.isDigit = true)
      ∧ (1 ≤ (generate_transaction rUnitZero).amount
        ∧ (generate_transaction rUnitZero).amount ≤ 10000
        ∧ ∃ k : ℤ, (generate_transaction rUnitZero).amount = (k : ℚ) / 100)
      ∧ ((generate_transaction rUnitZero).type = "sending"
        ∨ (generate_transaction rUnitZero).type = "receiving")) :=
  ⟨⟨le_rfl, by norm_num [rUnitZero], le_rfl, by norm_num [rUnitZero]⟩,
   generate_transaction_spec rUnitZero le_rfl (by norm_num [rUnitZero]) le_rfl
     (by norm_num [rUnitZero])⟩

/-- Python value at the reference level: an immutable atom or a reference
to a mutable heap object. -/
inductive HVal where
  | vnone
  | hstr (s : String)
  | hnum (q : ℚ)
  | hbool (b : Bool)
  | ref (r : ℕ)
deriving DecidableEq

/-- Mutable Python object: a dict or a list of values. -/
inductive HObj where
  | dict (fields : List (String × HVal))
  | list (items : List HVal)
deriving DecidableEq

/-- Heap of mutable objects, addressed by position. -/
abbrev Heap := List HObj

/-- Python `isinstance(v, list)` over the heap. -/
def isPyList (heap : Heap) : HVal → Bool
  | .ref r =>
    match heap[r]? with
    | some (.list _) => true
    | _ => false
  | _ => false

/-- JSON serialization of a value as performed by `requests` at
transmission time, reading the current heap; the fuel bounds the depth,
which suffices for every value Python can serialize. -/
def serializeV : ℕ → Heap → HVal → Option Json
  | 0, _, _ => Option.none
  | _ + 1, _, .vnone => some .null
  | _ + 1, _, .hstr s => some (.str s)
  | _ + 1, _, .hnum q => some (.num q)
  | _ + 1, _, .hbool b => some (.bool b)
  | fuel + 1, heap, .ref r =>
    match heap[r]? with
    | some (.dict fields) =>
      (fields.mapM (fun kv => (serializeV fuel heap kv.2).map (fun j => (kv.1, j)))).map
        Json.obj
    | some (.list items) => (items.mapM (serializeV fuel heap)).map Json.arr
    | Option.none => Option.none

/-- Heap-level embedding of `put_data_request`, making the rebinding on
line 68 of `immudb.py` explicit: a list argument makes the local variable
point to a freshly allocated wrapper dict appended to the heap; any other
argument leaves the heap untouched. The result is the heap after the
call, the transmitted body and the returned boolean. -/
def put_data_request_heap (heap : Heap) (v : HVal) (resp : HttpResponse) (fuel : ℕ) :
    Heap × Option Json × Bool :=
  if isPyList heap v then
    (heap ++ [HObj.dict [("document", v)]],
     serializeV fuel (heap ++ [HObj.dict [("document", v)]]) (HVal.ref heap.length),
     if resp.status = 200 then true else false)
  else
    (heap, serializeV fuel heap v, if resp.status = 200 then true else false)

/-- C10: `put_data_request` never mutates the caller's objects: every heap
address that existed before the call holds exactly the same object after
it, the heap being at most extended with the freshly allocated wrapper
dict of the batch envelope. -/
theorem put_data_request_no_mutation (heap : Heap) (v : HVal) (resp : HttpResponse)
    (fuel i : ℕ) (hi : i < heap.length) :
    (put_data_request_heap heap v resp fuel).1[i]? = heap[i]?
    ∧ ∃ ext, (put_data_request_heap heap v resp fuel).1 = heap ++ ext := by
  unfold put_data_request_heap
  by_cases h : isPyList heap v = true
  · rw [if_pos h]
    exact ⟨List.getElem?_append_left hi, ⟨[HObj.dict [("document", v)]], rfl⟩⟩
  · rw [if_neg h]
    exact ⟨rfl, ⟨[], (List.append_nil heap).symm⟩⟩

/-- Witness for C10: a one-object heap holding the empty list passed by
reference; address 0 is unchanged by the call. -/
theorem put_data_request_no_mutation_witness :
    (put_data_request_heap [HObj.list []] (HVal.ref 0) ⟨200, Json.null, "ok"⟩ 2).1[0]?
      = ([HObj.list []] : Heap)[0]?
    ∧ ∃ ext,
      (put_data_request_heap [HObj.list []] (HVal.ref 0) ⟨200, Json.null, "ok"⟩ 2).1
        = [HObj.list []] ++ ext :=
  put_data_request_no_mutation [HObj.list []] (HVal.ref 0) ⟨200, Json.null, "ok"⟩ 2 0
    (by decide)

example :
    put_data_request_heap [HObj.list []] (HVal.ref 0) ⟨200, Json.null, "ok"⟩ 2
      = ([HObj.list [], HObj.dict [("document", HVal.ref 0)]],
         some (.obj [("document", .arr [])]), true) := rfl

example : put_body (.arr []) = .obj [("document", .arr [])] := rfl

example :
    get_all_transaction (.obj [("revisions", .arr
      [.obj [("document", .obj [("a", .num 1)])],
       .obj [("document", .obj [("document", .arr [.num 2, .num 3])])]])])
    = .ok [.obj [("a", .num 1)], .num 2, .num 3] := rfl
